import Mathlib

/-!
# SeriousMedications view (Frontend/src/components/seriousmedications.jsx)

A shallow embedding of the client-side logic of the `SeriousMedications`
component: the record store held in the `medications` state cell, the facet
lists `categories` and `organizations`, the `filteredMedications` filter and
sort pipeline, the per-organization overview count, `handleAddMedication`, the
mount-time fetch and the loading / error branches of the render.

Conventions of the embedding

* An array is a `List`.  A call that can raise a JavaScript `TypeError`
  returns `Except JsError _`.
* A medication record is an object with string fields `name` and `category`,
  an `organizations` array that may be absent (`none`), the two identifier
  fields `_id` and `id` (each may be absent) and a table of numeric fields
  (`badEffectScore` and any other).  Numbers are integers; on finite numbers
  the sign of `b - a` is the sign of the exact difference, which is all the
  sort reads.
* `Array.prototype.sort` is the stable insertion sort driven by the sign of
  the comparator; a comparator result that is not a number (a field is
  missing) is read as `0`, the way the language's sort reads a `NaN`.
* `new Set(xs)` keeps the first occurrence of each value, in insertion order.
* A string is its sequence of Unicode code points.  `toLowerCase` is the
  locale-independent lower-casing of the Unicode standard: the lowercase
  mappings of the character database (version 14.0), the two-character image
  of U+0130 and the final-sigma rule.
-/

namespace SeriousMedications

/-! ## Values -/

/-- The exceptions a callback of the component can raise. -/
inductive JsError where
  | typeError
  deriving DecidableEq, Repr

deriving instance DecidableEq for Except

/-- One entry of a record's `organizations` array. -/
structure OrgEntry where
  organization : String
  deriving DecidableEq, Repr

/-- A medication record as the component reads it. -/
structure MedicationRecord where
  _id : Option String
  id : Option String
  name : String
  category : String
  organizations : Option (List OrgEntry)
  numbers : List (String × Int)
  deriving DecidableEq, Repr

/-- The value of `med[key]` when it is a number; `none` when the field is missing. -/
def numField (med : MedicationRecord) (key : String) : Option Int :=
  med.numbers.lookup key

/-- The React key of a card, `medication._id || medication.id`: the `_id` when it is a
non-empty string, otherwise the `id`. -/
def cardKey (med : MedicationRecord) : Option String :=
  match med._id with
  | some s => if s = "" then med.id else some s
  | none => med.id

/-! ## Language primitives used by the component -/

/-- The lowercase mappings of the Unicode character database (version 14.0) that send a code
point to one code point, as rows `(first, last, step, image of first)`: the code points
`first, first + step, ..., last` go to `image of first, image of first + step, ...`.  The rows
are ordered by `first`. -/
def lowerCaseRanges : List (Nat × Nat × Nat × Nat) :=
  [
    (65, 90, 1, 97), (192, 214, 1, 224), (216, 222, 1, 248), (256, 302, 2, 257),
    (306, 310, 2, 307), (313, 327, 2, 314), (330, 374, 2, 331), (376, 376, 1, 255),
    (377, 381, 2, 378), (385, 385, 1, 595), (386, 388, 2, 387), (390, 390, 1, 596),
    (391, 391, 1, 392), (393, 394, 1, 598), (395, 395, 1, 396), (398, 398, 1, 477),
    (399, 399, 1, 601), (400, 400, 1, 603), (401, 401, 1, 402), (403, 403, 1, 608),
    (404, 404, 1, 611), (406, 406, 1, 617), (407, 407, 1, 616), (408, 408, 1, 409),
    (412, 412, 1, 623), (413, 413, 1, 626), (415, 415, 1, 629), (416, 420, 2, 417),
    (422, 422, 1, 640), (423, 423, 1, 424), (425, 425, 1, 643), (428, 428, 1, 429),
    (430, 430, 1, 648), (431, 431, 1, 432), (433, 434, 1, 650), (435, 437, 2, 436),
    (439, 439, 1, 658), (440, 440, 1, 441), (444, 444, 1, 445), (452, 452, 1, 454),
    (453, 453, 1, 454), (455, 455, 1, 457), (456, 456, 1, 457), (458, 458, 1, 460),
    (459, 475, 2, 460), (478, 494, 2, 479), (497, 497, 1, 499), (498, 500, 2, 499),
    (502, 502, 1, 405), (503, 503, 1, 447), (504, 542, 2, 505), (544, 544, 1, 414),
    (546, 562, 2, 547), (570, 570, 1, 11365), (571, 571, 1, 572), (573, 573, 1, 410),
    (574, 574, 1, 11366), (577, 577, 1, 578), (579, 579, 1, 384), (580, 580, 1, 649),
    (581, 581, 1, 652), (582, 590, 2, 583), (880, 882, 2, 881), (886, 886, 1, 887),
    (895, 895, 1, 1011), (902, 902, 1, 940), (904, 906, 1, 941), (908, 908, 1, 972),
    (910, 911, 1, 973), (913, 929, 1, 945), (931, 939, 1, 963), (975, 975, 1, 983),
    (984, 1006, 2, 985), (1012, 1012, 1, 952), (1015, 1015, 1, 1016), (1017, 1017, 1, 1010),
    (1018, 1018, 1, 1019), (1021, 1023, 1, 891), (1024, 1039, 1, 1104), (1040, 1071, 1, 1072),
    (1120, 1152, 2, 1121), (1162, 1214, 2, 1163), (1216, 1216, 1, 1231), (1217, 1229, 2, 1218),
    (1232, 1326, 2, 1233), (1329, 1366, 1, 1377), (4256, 4293, 1, 11520), (4295, 4295, 1, 11559),
    (4301, 4301, 1, 11565), (5024, 5103, 1, 43888), (5104, 5109, 1, 5112), (7312, 7354, 1, 4304),
    (7357, 7359, 1, 4349), (7680, 7828, 2, 7681), (7838, 7838, 1, 223), (7840, 7934, 2, 7841),
    (7944, 7951, 1, 7936), (7960, 7965, 1, 7952), (7976, 7983, 1, 7968), (7992, 7999, 1, 7984),
    (8008, 8013, 1, 8000), (8025, 8031, 2, 8017), (8040, 8047, 1, 8032), (8072, 8079, 1, 8064),
    (8088, 8095, 1, 8080), (8104, 8111, 1, 8096), (8120, 8121, 1, 8112), (8122, 8123, 1, 8048),
    (8124, 8124, 1, 8115), (8136, 8139, 1, 8050), (8140, 8140, 1, 8131), (8152, 8153, 1, 8144),
    (8154, 8155, 1, 8054), (8168, 8169, 1, 8160), (8170, 8171, 1, 8058), (8172, 8172, 1, 8165),
    (8184, 8185, 1, 8056), (8186, 8187, 1, 8060), (8188, 8188, 1, 8179), (8486, 8486, 1, 969),
    (8490, 8490, 1, 107), (8491, 8491, 1, 229), (8498, 8498, 1, 8526), (8544, 8559, 1, 8560),
    (8579, 8579, 1, 8580), (9398, 9423, 1, 9424), (11264, 11311, 1, 11312), (11360, 11360, 1, 11361),
    (11362, 11362, 1, 619), (11363, 11363, 1, 7549), (11364, 11364, 1, 637), (11367, 11371, 2, 11368),
    (11373, 11373, 1, 593), (11374, 11374, 1, 625), (11375, 11375, 1, 592), (11376, 11376, 1, 594),
    (11378, 11378, 1, 11379), (11381, 11381, 1, 11382), (11390, 11391, 1, 575), (11392, 11490, 2, 11393),
    (11499, 11501, 2, 11500), (11506, 11506, 1, 11507), (42560, 42604, 2, 42561), (42624, 42650, 2, 42625),
    (42786, 42798, 2, 42787), (42802, 42862, 2, 42803), (42873, 42875, 2, 42874), (42877, 42877, 1, 7545),
    (42878, 42886, 2, 42879), (42891, 42891, 1, 42892), (42893, 42893, 1, 613), (42896, 42898, 2, 42897),
    (42902, 42920, 2, 42903), (42922, 42922, 1, 614), (42923, 42923, 1, 604), (42924, 42924, 1, 609),
    (42925, 42925, 1, 620), (42926, 42926, 1, 618), (42928, 42928, 1, 670), (42929, 42929, 1, 647),
    (42930, 42930, 1, 669), (42931, 42931, 1, 43859), (42932, 42946, 2, 42933), (42948, 42948, 1, 42900),
    (42949, 42949, 1, 642), (42950, 42950, 1, 7566), (42951, 42953, 2, 42952), (42960, 42960, 1, 42961),
    (42966, 42968, 2, 42967), (42997, 42997, 1, 42998), (65313, 65338, 1, 65345), (66560, 66599, 1, 66600),
    (66736, 66771, 1, 66776), (66928, 66964, 2, 66967), (66929, 66938, 1, 66968), (66941, 66954, 1, 66980),
    (66957, 66962, 1, 66996), (66965, 66965, 1, 67004), (68736, 68786, 1, 68800), (71840, 71871, 1, 71872),
    (93760, 93791, 1, 93792), (125184, 125217, 1, 125218) ]

/-- The code points with the Unicode property `Case_Ignorable`, as closed intervals in
increasing order. -/
def caseIgnorableRanges : List (Nat × Nat) :=
  [
    (39, 39), (46, 46), (58, 58), (94, 94), (96, 96), (168, 168),
    (173, 173), (175, 175), (180, 180), (183, 184), (688, 879), (884, 885),
    (890, 890), (900, 901), (903, 903), (1155, 1161), (1369, 1369), (1375, 1375),
    (1425, 1469), (1471, 1471), (1473, 1474), (1476, 1477), (1479, 1479), (1524, 1524),
    (1536, 1541), (1552, 1562), (1564, 1564), (1600, 1600), (1611, 1631), (1648, 1648),
    (1750, 1757), (1759, 1768), (1770, 1773), (1807, 1807), (1809, 1809), (1840, 1866),
    (1958, 1968), (2027, 2037), (2042, 2042), (2045, 2045), (2070, 2093), (2137, 2139),
    (2184, 2184), (2192, 2193), (2200, 2207), (2249, 2306), (2362, 2362), (2364, 2364),
    (2369, 2376), (2381, 2381), (2385, 2391), (2402, 2403), (2417, 2417), (2433, 2433),
    (2492, 2492), (2497, 2500), (2509, 2509), (2530, 2531), (2558, 2558), (2561, 2562),
    (2620, 2620), (2625, 2626), (2631, 2632), (2635, 2637), (2641, 2641), (2672, 2673),
    (2677, 2677), (2689, 2690), (2748, 2748), (2753, 2757), (2759, 2760), (2765, 2765),
    (2786, 2787), (2810, 2815), (2817, 2817), (2876, 2876), (2879, 2879), (2881, 2884),
    (2893, 2893), (2901, 2902), (2914, 2915), (2946, 2946), (3008, 3008), (3021, 3021),
    (3072, 3072), (3076, 3076), (3132, 3132), (3134, 3136), (3142, 3144), (3146, 3149),
    (3157, 3158), (3170, 3171), (3201, 3201), (3260, 3260), (3263, 3263), (3270, 3270),
    (3276, 3277), (3298, 3299), (3328, 3329), (3387, 3388), (3393, 3396), (3405, 3405),
    (3426, 3427), (3457, 3457), (3530, 3530), (3538, 3540), (3542, 3542), (3633, 3633),
    (3636, 3642), (3654, 3662), (3761, 3761), (3764, 3772), (3782, 3782), (3784, 3789),
    (3864, 3865), (3893, 3893), (3895, 3895), (3897, 3897), (3953, 3966), (3968, 3972),
    (3974, 3975), (3981, 3991), (3993, 4028), (4038, 4038), (4141, 4144), (4146, 4151),
    (4153, 4154), (4157, 4158), (4184, 4185), (4190, 4192), (4209, 4212), (4226, 4226),
    (4229, 4230), (4237, 4237), (4253, 4253), (4348, 4348), (4957, 4959), (5906, 5908),
    (5938, 5939), (5970, 5971), (6002, 6003), (6068, 6069), (6071, 6077), (6086, 6086),
    (6089, 6099), (6103, 6103), (6109, 6109), (6155, 6159), (6211, 6211), (6277, 6278),
    (6313, 6313), (6432, 6434), (6439, 6440), (6450, 6450), (6457, 6459), (6679, 6680),
    (6683, 6683), (6742, 6742), (6744, 6750), (6752, 6752), (6754, 6754), (6757, 6764),
    (6771, 6780), (6783, 6783), (6823, 6823), (6832, 6862), (6912, 6915), (6964, 6964),
    (6966, 6970), (6972, 6972), (6978, 6978), (7019, 7027), (7040, 7041), (7074, 7077),
    (7080, 7081), (7083, 7085), (7142, 7142), (7144, 7145), (7149, 7149), (7151, 7153),
    (7212, 7219), (7222, 7223), (7288, 7293), (7376, 7378), (7380, 7392), (7394, 7400),
    (7405, 7405), (7412, 7412), (7416, 7417), (7468, 7530), (7544, 7544), (7579, 7679),
    (8125, 8125), (8127, 8129), (8141, 8143), (8157, 8159), (8173, 8175), (8189, 8190),
    (8203, 8207), (8216, 8217), (8228, 8228), (8231, 8231), (8234, 8238), (8288, 8292),
    (8294, 8303), (8305, 8305), (8319, 8319), (8336, 8348), (8400, 8432), (11388, 11389),
    (11503, 11505), (11631, 11631), (11647, 11647), (11744, 11775), (11823, 11823), (12293, 12293),
    (12330, 12333), (12337, 12341), (12347, 12347), (12441, 12446), (12540, 12542), (40981, 40981),
    (42232, 42237), (42508, 42508), (42607, 42610), (42612, 42621), (42623, 42623), (42652, 42655),
    (42736, 42737), (42752, 42785), (42864, 42864), (42888, 42890), (42994, 42996), (43000, 43001),
    (43010, 43010), (43014, 43014), (43019, 43019), (43045, 43046), (43052, 43052), (43204, 43205),
    (43232, 43249), (43263, 43263), (43302, 43309), (43335, 43345), (43392, 43394), (43443, 43443),
    (43446, 43449), (43452, 43453), (43471, 43471), (43493, 43494), (43561, 43566), (43569, 43570),
    (43573, 43574), (43587, 43587), (43596, 43596), (43632, 43632), (43644, 43644), (43696, 43696),
    (43698, 43700), (43703, 43704), (43710, 43711), (43713, 43713), (43741, 43741), (43756, 43757),
    (43763, 43764), (43766, 43766), (43867, 43871), (43881, 43883), (44005, 44005), (44008, 44008),
    (44013, 44013), (64286, 64286), (64434, 64450), (65024, 65039), (65043, 65043), (65056, 65071),
    (65106, 65106), (65109, 65109), (65279, 65279), (65287, 65287), (65294, 65294), (65306, 65306),
    (65342, 65342), (65344, 65344), (65392, 65392), (65438, 65439), (65507, 65507), (65529, 65531),
    (66045, 66045), (66272, 66272), (66422, 66426), (67456, 67461), (67463, 67504), (67506, 67514),
    (68097, 68099), (68101, 68102), (68108, 68111), (68152, 68154), (68159, 68159), (68325, 68326),
    (68900, 68903), (69291, 69292), (69446, 69456), (69506, 69509), (69633, 69633), (69688, 69702),
    (69744, 69744), (69747, 69748), (69759, 69761), (69811, 69814), (69817, 69818), (69821, 69821),
    (69826, 69826), (69837, 69837), (69888, 69890), (69927, 69931), (69933, 69940), (70003, 70003),
    (70016, 70017), (70070, 70078), (70089, 70092), (70095, 70095), (70191, 70193), (70196, 70196),
    (70198, 70199), (70206, 70206), (70367, 70367), (70371, 70378), (70400, 70401), (70459, 70460),
    (70464, 70464), (70502, 70508), (70512, 70516), (70712, 70719), (70722, 70724), (70726, 70726),
    (70750, 70750), (70835, 70840), (70842, 70842), (70847, 70848), (70850, 70851), (71090, 71093),
    (71100, 71101), (71103, 71104), (71132, 71133), (71219, 71226), (71229, 71229), (71231, 71232),
    (71339, 71339), (71341, 71341), (71344, 71349), (71351, 71351), (71453, 71455), (71458, 71461),
    (71463, 71467), (71727, 71735), (71737, 71738), (71995, 71996), (71998, 71998), (72003, 72003),
    (72148, 72151), (72154, 72155), (72160, 72160), (72193, 72202), (72243, 72248), (72251, 72254),
    (72263, 72263), (72273, 72278), (72281, 72283), (72330, 72342), (72344, 72345), (72752, 72758),
    (72760, 72765), (72767, 72767), (72850, 72871), (72874, 72880), (72882, 72883), (72885, 72886),
    (73009, 73014), (73018, 73018), (73020, 73021), (73023, 73029), (73031, 73031), (73104, 73105),
    (73109, 73109), (73111, 73111), (73459, 73460), (78896, 78904), (92912, 92916), (92976, 92982),
    (92992, 92995), (94031, 94031), (94095, 94111), (94176, 94177), (94179, 94180), (110576, 110579),
    (110581, 110587), (110589, 110590), (113821, 113822), (113824, 113827), (118528, 118573), (118576, 118598),
    (119143, 119145), (119155, 119170), (119173, 119179), (119210, 119213), (119362, 119364), (121344, 121398),
    (121403, 121452), (121461, 121461), (121476, 121476), (121499, 121503), (121505, 121519), (122880, 122886),
    (122888, 122904), (122907, 122913), (122915, 122916), (122918, 122922), (123184, 123197), (123566, 123566),
    (123628, 123631), (125136, 125142), (125252, 125259), (127995, 127999), (917505, 917505), (917536, 917631),
    (917760, 917999) ]

/-- The code points with the Unicode property `Cased`, as closed intervals in increasing
order. -/
def casedRanges : List (Nat × Nat) :=
  [
    (65, 90), (97, 122), (170, 170), (181, 181), (186, 186), (192, 214),
    (216, 246), (248, 442), (444, 447), (452, 659), (661, 696), (704, 705),
    (736, 740), (837, 837), (880, 883), (886, 887), (890, 893), (895, 895),
    (902, 902), (904, 906), (908, 908), (910, 929), (931, 1013), (1015, 1153),
    (1162, 1327), (1329, 1366), (1376, 1416), (4256, 4293), (4295, 4295), (4301, 4301),
    (4304, 4346), (4349, 4351), (5024, 5109), (5112, 5117), (7296, 7304), (7312, 7354),
    (7357, 7359), (7424, 7615), (7680, 7957), (7960, 7965), (7968, 8005), (8008, 8013),
    (8016, 8023), (8025, 8025), (8027, 8027), (8029, 8029), (8031, 8061), (8064, 8116),
    (8118, 8124), (8126, 8126), (8130, 8132), (8134, 8140), (8144, 8147), (8150, 8155),
    (8160, 8172), (8178, 8180), (8182, 8188), (8305, 8305), (8319, 8319), (8336, 8348),
    (8450, 8450), (8455, 8455), (8458, 8467), (8469, 8469), (8473, 8477), (8484, 8484),
    (8486, 8486), (8488, 8488), (8490, 8493), (8495, 8500), (8505, 8505), (8508, 8511),
    (8517, 8521), (8526, 8526), (8544, 8575), (8579, 8580), (9398, 9449), (11264, 11492),
    (11499, 11502), (11506, 11507), (11520, 11557), (11559, 11559), (11565, 11565), (42560, 42605),
    (42624, 42653), (42786, 42887), (42891, 42894), (42896, 42954), (42960, 42961), (42963, 42963),
    (42965, 42969), (42997, 42998), (43000, 43002), (43824, 43866), (43868, 43880), (43888, 43967),
    (64256, 64262), (64275, 64279), (65313, 65338), (65345, 65370), (66560, 66639), (66736, 66771),
    (66776, 66811), (66928, 66938), (66940, 66954), (66956, 66962), (66964, 66965), (66967, 66977),
    (66979, 66993), (66995, 67001), (67003, 67004), (67456, 67456), (67459, 67461), (67463, 67504),
    (67506, 67514), (68736, 68786), (68800, 68850), (71840, 71903), (93760, 93823), (119808, 119892),
    (119894, 119964), (119966, 119967), (119970, 119970), (119973, 119974), (119977, 119980), (119982, 119993),
    (119995, 119995), (119997, 120003), (120005, 120069), (120071, 120074), (120077, 120084), (120086, 120092),
    (120094, 120121), (120123, 120126), (120128, 120132), (120134, 120134), (120138, 120144), (120146, 120485),
    (120488, 120512), (120514, 120538), (120540, 120570), (120572, 120596), (120598, 120628), (120630, 120654),
    (120656, 120686), (120688, 120712), (120714, 120744), (120746, 120770), (120772, 120779), (122624, 122633),
    (122635, 122654), (125184, 125251), (127280, 127305), (127312, 127337), (127344, 127369) ]

/-- Membership of a code point in a list of increasing closed intervals. -/
def inRanges (n : Nat) : List (Nat × Nat) → Bool
  | [] => false
  | (lo, hi) :: rest =>
    if n < lo then false else if n ≤ hi then true else inRanges n rest

/-- The image of a code point under `lowerCaseRanges`; a code point in no row is its own
image. -/
def lowerCodePoint (n : Nat) : List (Nat × Nat × Nat × Nat) → Nat
  | [] => n
  | (lo, hi, step, image) :: rest =>
    if n < lo then n
    else if n ≤ hi ∧ (n - lo) % step = 0 then image + (n - lo)
    else lowerCodePoint n rest

/-- Walking away from a capital sigma and skipping case-ignorable characters, the first other
character is cased. -/
def meetsCased : List Char → Bool
  | [] => false
  | c :: cs =>
    if inRanges c.toNat caseIgnorableRanges then meetsCased cs
    else inRanges c.toNat casedRanges

/-- The lower-casing loop: `before` holds the characters already read, nearest first.  A capital
sigma (U+03A3) in final position (a cased letter before it, none after it) becomes the final
small sigma (U+03C2); a capital I with dot above (U+0130) becomes `i` and a combining dot
above; every other character goes through `lowerCaseRanges`. -/
def toLowerCaseAux : List Char → List Char → List Char
  | _, [] => []
  | before, c :: rest =>
    (if c.toNat = 931 ∧ meetsCased before = true ∧ meetsCased rest = false then
        [Char.ofNat 962]
      else if c.toNat = 304 then [Char.ofNat 105, Char.ofNat 775]
      else [Char.ofNat (lowerCodePoint c.toNat lowerCaseRanges)]) ++
      toLowerCaseAux (c :: before) rest

/-- `s.toLowerCase()`: the locale-independent Unicode lower-casing of the string. -/
def toLowerCase (s : String) : String :=
  String.mk (toLowerCaseAux [] s.data)

/-- `s.includes(t)`: `t` occurs in `s` as a contiguous run of characters (for well-formed
strings a run of code points is a run of UTF-16 code units and conversely). -/
def includes (s t : String) : Bool :=
  decide (t.data <:+: s.data)

/-- `xs.filter(f)` for a callback that may raise: elements are visited in order and the
first exception aborts the call. -/
def arrayFilter {α : Type} (f : α → Except JsError Bool) : List α → Except JsError (List α)
  | [] => .ok []
  | x :: xs =>
    match f x with
    | .error e => .error e
    | .ok keep =>
      match arrayFilter f xs with
      | .error e => .error e
      | .ok rest => .ok (if keep then x :: rest else rest)

/-- `xs.flatMap(f)` for a callback that may raise. -/
def arrayFlatMap {α β : Type} (f : α → Except JsError (List β)) : List α → Except JsError (List β)
  | [] => .ok []
  | x :: xs =>
    match f x with
    | .error e => .error e
    | .ok ys =>
      match arrayFlatMap f xs with
      | .error e => .error e
      | .ok rest => .ok (ys ++ rest)

/-- `xs.sort(compare)`: stable, ascending in the comparator (`compare a b ≤ 0` keeps `a`
before `b`). -/
def arraySort {α : Type} (compare : α → α → Int) (xs : List α) : List α :=
  List.insertionSort (fun a b => compare a b ≤ 0) xs

/-- `Array.from(new Set(xs))`: each value once, in order of first insertion. -/
def arrayFromSet {α : Type} [DecidableEq α] (xs : List α) : List α :=
  xs.foldl (fun seen x => if x ∈ seen then seen else seen ++ [x]) []

/-! ## Facets, pipeline and overview count -/

/-- The overview table `ORGANIZATIONS`: name, icon component and description. -/
def ORGANIZATIONS : List (String × String × String) :=
  [ ("WHO", "Globe", "World Health Organization"),
    ("FDA", "Shield", "Food and Drug Administration"),
    ("ICMR", "HeartPulse", "Indian Council of Medical Research") ]

/-- The facet `categories`: `Array.from(new Set(medications.map((med) => med.category)))`. -/
def categories (medications : List MedicationRecord) : List String :=
  arrayFromSet (medications.map (fun med => med.category))

/-- The callback `med => med.organizations.map(org => org.organization)`; reading `.map` of an
absent `organizations` raises. -/
def organizationNamesOf (med : MedicationRecord) : Except JsError (List String) :=
  match med.organizations with
  | none => .error .typeError
  | some orgs => .ok (orgs.map (fun org => org.organization))

/-- The facet `organizations`. -/
def organizations (medications : List MedicationRecord) : Except JsError (List String) :=
  match arrayFlatMap organizationNamesOf medications with
  | .error e => .error e
  | .ok names => .ok (arrayFromSet names)

/-- The local `matchesSearch` of the filter callback. -/
def matchesSearch (searchTerm : String) (med : MedicationRecord) : Bool :=
  includes (toLowerCase med.name) (toLowerCase searchTerm) ||
    includes (toLowerCase med.category) (toLowerCase searchTerm)

/-- The local `matchesCategory` of the filter callback. -/
def matchesCategory (selectedCategory : String) (med : MedicationRecord) : Bool :=
  selectedCategory == "all" || med.category == selectedCategory

/-- The local `matchesOrganization` of the filter callback; `.some` of an absent
`organizations` raises, and is reached only when the selector is not `"all"`. -/
def matchesOrganization (selectedOrganization : String) (med : MedicationRecord) :
    Except JsError Bool :=
  if selectedOrganization = "all" then .ok true
  else
    match med.organizations with
    | none => .error .typeError
    | some orgs => .ok (orgs.any (fun org => org.organization == selectedOrganization))

/-- The filter callback of `filteredMedications`. -/
def filterCallback (searchTerm selectedCategory selectedOrganization : String)
    (med : MedicationRecord) : Except JsError Bool :=
  match matchesOrganization selectedOrganization med with
  | .error e => .error e
  | .ok mo => .ok (matchesSearch searchTerm med && matchesCategory selectedCategory med && mo)

/-- The comparator `(a, b) => b[sortBy] - a[sortBy]`; a missing operand makes the difference
`NaN`, which the sort reads as `0`. -/
def compareFn (sortBy : String) (a b : MedicationRecord) : Int :=
  match numField b sortBy, numField a sortBy with
  | some y, some x => y - x
  | _, _ => 0

/-- The pipeline `filteredMedications`: filter, then sort. -/
def filteredMedications (medications : List MedicationRecord)
    (searchTerm selectedCategory selectedOrganization sortBy : String) :
    Except JsError (List MedicationRecord) :=
  match arrayFilter (filterCallback searchTerm selectedCategory selectedOrganization)
      medications with
  | .error e => .error e
  | .ok kept => .ok (arraySort (compareFn sortBy) kept)

/-- The overview count of one organization:
`medications.filter((med) => med.organizations && med.organizations.some(...)).length`. -/
def flaggedCount (medications : List MedicationRecord) (orgName : String) : Nat :=
  (medications.filter (fun med =>
    match med.organizations with
    | none => false
    | some orgs => orgs.any (fun o => o.organization == orgName))).length

/-! ## View state -/

/-- The state cells of the component. -/
structure ViewState where
  darkMode : Bool
  searchTerm : String
  selectedCategory : String
  selectedOrganization : String
  sortBy : String
  showAddForm : Bool
  medications : List MedicationRecord
  loading : Bool
  error : Option String
  deriving DecidableEq, Repr

/-- The initial values passed to `useState`. -/
def initialState : ViewState where
  darkMode := false
  searchTerm := ""
  selectedCategory := "all"
  selectedOrganization := "all"
  sortBy := "badEffectScore"
  showAddForm := false
  medications := []
  loading := true
  error := none

/-- The message set by the `catch` branch of `fetchMedications`. -/
def fetchErrorMessage : String :=
  "Error fetching medications. Please try again later."

/-- The `try` branch of `fetchMedications`: the request resolved with `data`. -/
def fetchResolved (data : List MedicationRecord) (s : ViewState) : ViewState :=
  { s with medications := data, loading := false }

/-- The `catch` branch of `fetchMedications`: the request rejected. -/
def fetchRejected (s : ViewState) : ViewState :=
  { s with error := some fetchErrorMessage, loading := false }

/-- The handler `handleAddMedication`: `setMedications((prev) => [newMedication, ...prev])`. -/
def handleAddMedication (newMedication : MedicationRecord) (s : ViewState) : ViewState :=
  { s with medications := newMedication :: s.medications }

/-- What a render returns. -/
inductive View where
  | spinner
  | errorMessage (text : String)
  | page (counts : List (String × Nat)) (organizationOptions categoryOptions : List String)
      (cards : List MedicationRecord)
  deriving DecidableEq, Repr

/-- One render of the component: the facets and the pipeline are computed first, then the
`loading` branch, the `error` branch (a non-empty string is truthy) and the page. -/
def render (s : ViewState) : Except JsError View :=
  match organizations s.medications with
  | .error e => .error e
  | .ok orgs =>
    match filteredMedications s.medications s.searchTerm s.selectedCategory
        s.selectedOrganization s.sortBy with
    | .error e => .error e
    | .ok cards =>
      if s.loading then .ok .spinner
      else
        match s.error with
        | some text =>
          if text = "" then
            .ok (.page (ORGANIZATIONS.map (fun org => (org.1, flaggedCount s.medications org.1)))
              orgs (categories s.medications) cards)
          else .ok (.errorMessage text)
        | none =>
          .ok (.page (ORGANIZATIONS.map (fun org => (org.1, flaggedCount s.medications org.1)))
            orgs (categories s.medications) cards)

/-! ## Sample data -/

/-- The record `Drug A` of the scenario. -/
def drugA : MedicationRecord where
  _id := some "a"
  id := none
  name := "Drug A"
  category := "Pain"
  organizations := some [⟨"WHO"⟩]
  numbers := [("badEffectScore", 80)]

/-- The record `Drug B` of the scenario. -/
def drugB : MedicationRecord where
  _id := some "b"
  id := none
  name := "Drug B"
  category := "Cardiac"
  organizations := some [⟨"FDA"⟩]
  numbers := [("badEffectScore", 95)]

/-- A record with the score of `Drug A`. -/
def drugD : MedicationRecord where
  _id := some "d"
  id := none
  name := "Drug D"
  category := "Pain"
  organizations := some [⟨"WHO"⟩, ⟨"FDA"⟩]
  numbers := [("badEffectScore", 80)]

/-- A record whose name lies outside ASCII. -/
def epinephrine : MedicationRecord where
  _id := some "e"
  id := none
  name := "ÉPINÉPHRINE"
  category := "Cardiac"
  organizations := some [⟨"ICMR"⟩]
  numbers := [("badEffectScore", 60)]

/-- A record that carries no `organizations` field. -/
def drugNoOrgs : MedicationRecord where
  _id := some "c"
  id := none
  name := "Drug C"
  category := "Pain"
  organizations := none
  numbers := [("badEffectScore", 70)]

/-! ## Reference predicates

These follow the wording of the specification and are compared with the code below. -/

/-- The organization entries of a record, an absent field read as no entry. -/
def orgEntries (r : MedicationRecord) : List OrgEntry :=
  r.organizations.getD []

/-- The filter predicate of the specification: the lower-cased search term is a substring of
the lower-cased name or category, the category selector is `"all"` or the record's category,
and the organization selector is `"all"` or the organization of one of the record's entries. -/
def PassesFilter (searchTerm selectedCategory selectedOrganization : String)
    (r : MedicationRecord) : Prop :=
  ((toLowerCase searchTerm).data <:+: (toLowerCase r.name).data ∨
      (toLowerCase searchTerm).data <:+: (toLowerCase r.category).data) ∧
    (selectedCategory = "all" ∨ selectedCategory = r.category) ∧
    (selectedOrganization = "all" ∨ ∃ e ∈ orgEntries r, e.organization = selectedOrganization)

instance (searchTerm selectedCategory selectedOrganization : String) :
    DecidablePred (PassesFilter searchTerm selectedCategory selectedOrganization) :=
  fun _ => by unfold PassesFilter; infer_instance

/-- Every record of the list carries an `organizations` array. -/
def HasOrganizations (medications : List MedicationRecord) : Prop :=
  ∀ r ∈ medications, r.organizations ≠ none

/-- Every record of the list has a number in the field `key`. -/
def NumericAt (key : String) (medications : List MedicationRecord) : Prop :=
  ∀ r ∈ medications, ∃ v, numField r key = some v

/-- Record `x` is at least record `y` in the numeric field `key`. -/
def GeAt (key : String) (x y : MedicationRecord) : Prop :=
  ∃ vx vy, numField x key = some vx ∧ numField y key = some vy ∧ vy ≤ vx

/-- The category values of the store as they occur, in record order. -/
def categoryOccurrences (medications : List MedicationRecord) : List String :=
  medications.map (fun r => r.category)

/-- The organization names of the store as they occur: records in order and, within a record,
its entries in order. -/
def organizationOccurrences (medications : List MedicationRecord) : List String :=
  medications.flatMap (fun r => (orgEntries r).map (fun e => e.organization))

/-- The identifiers of the store are pairwise distinct. -/
def UniqueIds (medications : List MedicationRecord) : Prop :=
  (medications.map cardKey).Nodup

/-- The states the component can reach from its initial state by the fetch outcome and by
submissions of the add form. -/
inductive Reachable : ViewState → Prop where
  | init : Reachable initialState
  | resolved (data : List MedicationRecord) (s : ViewState) :
      Reachable s → Reachable (fetchResolved data s)
  | rejected (s : ViewState) : Reachable s → Reachable (fetchRejected s)
  | added (n : MedicationRecord) (s : ViewState) :
      Reachable s → Reachable (handleAddMedication n s)

/-! ## Lemmas on the primitives -/

theorem arrayFilter_eq_filter {α : Type} (f : α → Except JsError Bool) (p : α → Bool)
    (xs : List α) (h : ∀ x ∈ xs, f x = .ok (p x)) : arrayFilter f xs = .ok (xs.filter p) := by
  induction xs with
  | nil => rfl
  | cons x xs ih =>
    have hx : f x = .ok (p x) := h x (List.mem_cons_self _ _)
    have hxs : arrayFilter f xs = .ok (xs.filter p) :=
      ih (fun y hy => h y (List.mem_cons_of_mem _ hy))
    simp only [arrayFilter, hx, hxs, List.filter_cons]

theorem arraySort_perm {α : Type} (compare : α → α → Int) (xs : List α) :
    (arraySort compare xs).Perm xs :=
  List.perm_insertionSort _ xs

theorem toLowerCase_empty : toLowerCase "" = "" := rfl

theorem matchesSearch_empty (med : MedicationRecord) : matchesSearch "" med = true := by
  simp [matchesSearch, includes, toLowerCase_empty]

theorem matchesSearch_iff (searchTerm : String) (r : MedicationRecord) :
    matchesSearch searchTerm r = true ↔
      ((toLowerCase searchTerm).data <:+: (toLowerCase r.name).data ∨
        (toLowerCase searchTerm).data <:+: (toLowerCase r.category).data) := by
  simp [matchesSearch, includes]

theorem matchesCategory_iff (selectedCategory : String) (r : MedicationRecord) :
    matchesCategory selectedCategory r = true ↔
      (selectedCategory = "all" ∨ selectedCategory = r.category) := by
  simp only [matchesCategory, Bool.or_eq_true, beq_iff_eq]
  constructor
  · rintro (h | h)
    · exact Or.inl h
    · exact Or.inr h.symm
  · rintro (h | h)
    · exact Or.inl h
    · exact Or.inr h.symm

theorem any_organization_iff (orgs : List OrgEntry) (selectedOrganization : String) :
    orgs.any (fun org => org.organization == selectedOrganization) = true ↔
      ∃ e ∈ orgs, e.organization = selectedOrganization := by
  simp [List.any_eq_true]

theorem filterCallback_eq (searchTerm selectedCategory selectedOrganization : String)
    (r : MedicationRecord) (h : selectedOrganization = "all" ∨ r.organizations ≠ none) :
    filterCallback searchTerm selectedCategory selectedOrganization r =
      .ok (decide (PassesFilter searchTerm selectedCategory selectedOrganization r)) := by
  unfold filterCallback matchesOrganization
  by_cases ho : selectedOrganization = "all"
  · rw [if_pos ho]
    show Except.ok _ = Except.ok _
    congr 1
    rw [Bool.eq_iff_iff]
    simp only [Bool.and_eq_true, matchesSearch_iff, matchesCategory_iff, decide_eq_true_eq,
      PassesFilter]
    tauto
  · rw [if_neg ho]
    cases horg : r.organizations with
    | none =>
      rcases h with h | h
      · exact absurd h ho
      · exact absurd horg h
    | some orgs =>
      show Except.ok _ = Except.ok _
      congr 1
      rw [Bool.eq_iff_iff]
      simp only [Bool.and_eq_true, matchesSearch_iff, matchesCategory_iff, decide_eq_true_eq,
        PassesFilter, any_organization_iff, orgEntries, horg, Option.getD_some]
      tauto

theorem filteredMedications_eq (medications : List MedicationRecord)
    (searchTerm selectedCategory selectedOrganization sortBy : String)
    (h : selectedOrganization = "all" ∨ HasOrganizations medications) :
    filteredMedications medications searchTerm selectedCategory selectedOrganization sortBy =
      .ok (arraySort (compareFn sortBy) (medications.filter (fun r =>
        decide (PassesFilter searchTerm selectedCategory selectedOrganization r)))) := by
  unfold filteredMedications
  rw [arrayFilter_eq_filter _ (fun r =>
    decide (PassesFilter searchTerm selectedCategory selectedOrganization r))]
  intro r hr
  apply filterCallback_eq
  rcases h with h | h
  · exact Or.inl h
  · exact Or.inr (h r hr)

/-! ## Lemmas on the sort -/

theorem compareFn_le_iff (key : String) (a b : MedicationRecord) (va vb : Int)
    (ha : numField a key = some va) (hb : numField b key = some vb) :
    compareFn key a b ≤ 0 ↔ vb ≤ va := by
  simp [compareFn, ha, hb]

theorem GeAt_trans (key : String) (x y z : MedicationRecord) (hxy : GeAt key x y)
    (hyz : GeAt key y z) : GeAt key x z := by
  obtain ⟨vx, vy, hx, hy, h1⟩ := hxy
  obtain ⟨vy2, vz, hy2, hz, h2⟩ := hyz
  rw [hy] at hy2
  cases hy2
  exact ⟨vx, vz, hx, hz, le_trans h2 h1⟩

theorem orderedInsert_pairwise_GeAt (key : String) (x : MedicationRecord) :
    ∀ l : List MedicationRecord, NumericAt key (x :: l) → l.Pairwise (GeAt key) →
      (l.orderedInsert (fun a b => compareFn key a b ≤ 0) x).Pairwise (GeAt key)
  | [], _, _ => by simp [List.orderedInsert]
  | y :: l, hnum, hp => by
    obtain ⟨vx, hx⟩ := hnum x (List.mem_cons_self _ _)
    obtain ⟨vy, hy⟩ := hnum y (List.mem_cons_of_mem _ (List.mem_cons_self _ _))
    have hyl : ∀ z ∈ l, GeAt key y z := (List.pairwise_cons.mp hp).1
    have hl : l.Pairwise (GeAt key) := (List.pairwise_cons.mp hp).2
    by_cases hc : compareFn key x y ≤ 0
    · have hxy : GeAt key x y := ⟨vx, vy, hx, hy, (compareFn_le_iff key x y vx vy hx hy).mp hc⟩
      rw [List.orderedInsert, if_pos hc]
      refine List.pairwise_cons.mpr ⟨?_, hp⟩
      intro z hz
      rcases List.mem_cons.mp hz with rfl | hz
      · exact hxy
      · exact GeAt_trans key x y z hxy (hyl z hz)
    · have hyx : GeAt key y x := by
        refine ⟨vy, vx, hy, hx, ?_⟩
        have := (compareFn_le_iff key x y vx vy hx hy).not.mp hc
        omega
      rw [List.orderedInsert, if_neg hc]
      refine List.pairwise_cons.mpr ⟨?_, ?_⟩
      · intro z hz
        rcases (List.mem_orderedInsert _).mp hz with rfl | hz
        · exact hyx
        · exact hyl z hz
      · apply orderedInsert_pairwise_GeAt key x l _ hl
        intro r hr
        rcases List.mem_cons.mp hr with rfl | hr
        · exact ⟨vx, hx⟩
        · exact hnum r (List.mem_cons_of_mem _ (List.mem_cons_of_mem _ hr))

theorem arraySort_pairwise_GeAt (key : String) :
    ∀ l : List MedicationRecord, NumericAt key l →
      (arraySort (compareFn key) l).Pairwise (GeAt key)
  | [], _ => by simp [arraySort]
  | x :: l, hnum => by
    have hl : NumericAt key l := fun r hr => hnum r (List.mem_cons_of_mem _ hr)
    have ih := arraySort_pairwise_GeAt key l hl
    unfold arraySort at ih ⊢
    rw [List.insertionSort]
    apply orderedInsert_pairwise_GeAt key x _ _ ih
    intro r hr
    rcases List.mem_cons.mp hr with rfl | hr
    · exact hnum _ (List.mem_cons_self _ _)
    · exact hl r ((List.mem_insertionSort _).mp hr)

theorem filter_orderedInsert_key (key : String) (v : Int) (x : MedicationRecord) :
    ∀ l : List MedicationRecord,
      (l.orderedInsert (fun a b => compareFn key a b ≤ 0) x).filter
          (fun r => decide (numField r key = some v)) =
        (x :: l).filter (fun r => decide (numField r key = some v))
  | [] => by simp [List.orderedInsert]
  | y :: l => by
    by_cases hc : compareFn key x y ≤ 0
    · rw [List.orderedInsert, if_pos hc]
    · rw [List.orderedInsert, if_neg hc]
      have ih := filter_orderedInsert_key key v x l
      by_cases hx : numField x key = some v
      · have hy : numField y key ≠ some v := by
          intro hy
          apply hc
          rw [(compareFn_le_iff key x y v v hx hy)]
        simp only [List.filter_cons, hx, hy, decide_True, decide_False, if_true] at ih ⊢
        simpa using ih
      · simp only [List.filter_cons, hx, decide_False] at ih ⊢
        by_cases hy : numField y key = some v
        · simpa [hy] using ih
        · simpa [hy] using ih

theorem filter_arraySort_key (key : String) (v : Int) :
    ∀ l : List MedicationRecord,
      (arraySort (compareFn key) l).filter (fun r => decide (numField r key = some v)) =
        l.filter (fun r => decide (numField r key = some v))
  | [] => by simp [arraySort]
  | x :: l => by
    have ih := filter_arraySort_key key v l
    unfold arraySort at ih ⊢
    rw [List.insertionSort, filter_orderedInsert_key, List.filter_cons, List.filter_cons, ih]

/-! ## Lemmas on `arrayFromSet` -/

theorem arrayFromSet_snoc {α : Type} [DecidableEq α] (xs : List α) (x : α) :
    arrayFromSet (xs ++ [x]) =
      if x ∈ arrayFromSet xs then arrayFromSet xs else arrayFromSet xs ++ [x] := by
  simp [arrayFromSet, List.foldl_append]

theorem mem_arrayFromSet {α : Type} [DecidableEq α] (xs : List α) (a : α) :
    a ∈ arrayFromSet xs ↔ a ∈ xs := by
  induction xs using List.reverseRecOn with
  | nil => simp [arrayFromSet]
  | append_singleton xs x ih =>
    rw [arrayFromSet_snoc]
    by_cases hx : x ∈ arrayFromSet xs
    · rw [if_pos hx, ih, List.mem_append, List.mem_singleton]
      constructor
      · exact Or.inl
      · rintro (h | rfl)
        · exact h
        · exact ih.mp hx
    · rw [if_neg hx, List.mem_append, List.mem_append, ih]

theorem nodup_arrayFromSet {α : Type} [DecidableEq α] (xs : List α) :
    (arrayFromSet xs).Nodup := by
  induction xs using List.reverseRecOn with
  | nil => simp [arrayFromSet]
  | append_singleton xs x ih =>
    rw [arrayFromSet_snoc]
    by_cases hx : x ∈ arrayFromSet xs
    · rw [if_pos hx]
      exact ih
    · rw [if_neg hx]
      apply List.Nodup.append ih (List.nodup_singleton x)
      intro a ha hax
      rw [List.mem_singleton] at hax
      subst hax
      exact hx ha

theorem indexOf_arrayFromSet_lt_iff {α : Type} [DecidableEq α] (xs : List α) (a b : α)
    (ha : a ∈ xs) (hb : b ∈ xs) :
    List.indexOf a (arrayFromSet xs) < List.indexOf b (arrayFromSet xs) ↔
      List.indexOf a xs < List.indexOf b xs := by
  induction xs using List.reverseRecOn with
  | nil => simp at ha
  | append_singleton xs x ih =>
    rw [arrayFromSet_snoc]
    by_cases hx : x ∈ arrayFromSet xs
    · have hxs : x ∈ xs := (mem_arrayFromSet xs x).mp hx
      have ha2 : a ∈ xs := by
        rcases List.mem_append.mp ha with h | h
        · exact h
        · rw [List.mem_singleton.mp h]; exact hxs
      have hb2 : b ∈ xs := by
        rcases List.mem_append.mp hb with h | h
        · exact h
        · rw [List.mem_singleton.mp h]; exact hxs
      rw [if_pos hx, List.indexOf_append_of_mem ha2, List.indexOf_append_of_mem hb2]
      exact ih ha2 hb2
    · have hxs : x ∉ xs := fun h => hx ((mem_arrayFromSet xs x).mpr h)
      rw [if_neg hx]
      by_cases ha2 : a ∈ xs
      · have ha3 : a ∈ arrayFromSet xs := (mem_arrayFromSet xs a).mpr ha2
        rw [List.indexOf_append_of_mem ha2, List.indexOf_append_of_mem ha3]
        by_cases hb2 : b ∈ xs
        · have hb3 : b ∈ arrayFromSet xs := (mem_arrayFromSet xs b).mpr hb2
          rw [List.indexOf_append_of_mem hb2, List.indexOf_append_of_mem hb3]
          exact ih ha2 hb2
        · have hb3 : b ∉ arrayFromSet xs := fun h => hb2 ((mem_arrayFromSet xs b).mp h)
          rw [List.indexOf_append_of_not_mem hb2, List.indexOf_append_of_not_mem hb3]
          have h1 : List.indexOf a xs < xs.length := List.indexOf_lt_length.mpr ha2
          have h2 : List.indexOf a (arrayFromSet xs) < (arrayFromSet xs).length :=
            List.indexOf_lt_length.mpr ha3
          constructor
          · intro _; omega
          · intro _; omega
      · have ha3 : a ∉ arrayFromSet xs := fun h => ha2 ((mem_arrayFromSet xs a).mp h)
        have hax : a = x := by
          rcases List.mem_append.mp ha with h | h
          · exact absurd h ha2
          · exact List.mem_singleton.mp h
        subst hax
        rw [List.indexOf_append_of_not_mem ha2, List.indexOf_append_of_not_mem ha3]
        simp only [List.indexOf_cons_self, Nat.add_zero]
        have h1 : List.indexOf b (xs ++ [a]) ≤ xs.length := by
          by_cases hb2 : b ∈ xs
          · rw [List.indexOf_append_of_mem hb2]
            exact List.indexOf_le_length
          · have hba : b = a := by
              rcases List.mem_append.mp hb with h | h
              · exact absurd h hb2
              · exact List.mem_singleton.mp h
            subst hba
            rw [List.indexOf_append_of_not_mem hb2]
            simp
        have h2 : List.indexOf b (arrayFromSet xs ++ [a]) ≤ (arrayFromSet xs).length := by
          by_cases hb3 : b ∈ arrayFromSet xs
          · rw [List.indexOf_append_of_mem hb3]
            exact List.indexOf_le_length
          · have hb2 : b ∉ xs := fun h => hb3 ((mem_arrayFromSet xs b).mpr h)
            have hba : b = a := by
              rcases List.mem_append.mp hb with h | h
              · exact absurd h hb2
              · exact List.mem_singleton.mp h
            subst hba
            rw [List.indexOf_append_of_not_mem hb3]
            simp
        constructor
        · intro h; omega
        · intro h; omega

theorem arrayFlatMap_organizationNamesOf (medications : List MedicationRecord)
    (h : HasOrganizations medications) :
    arrayFlatMap organizationNamesOf medications = .ok (organizationOccurrences medications) := by
  induction medications with
  | nil => rfl
  | cons r rs ih =>
    have hrs : HasOrganizations rs := fun x hx => h x (List.mem_cons_of_mem _ hx)
    have hr : r.organizations ≠ none := h r (List.mem_cons_self _ _)
    cases horg : r.organizations with
    | none => exact absurd horg hr
    | some orgs =>
      simp only [arrayFlatMap, organizationNamesOf, horg, ih hrs, organizationOccurrences,
        List.flatMap_cons, orgEntries, Option.getD_some]

theorem passesFilter_neutral (r : MedicationRecord) : PassesFilter "" "all" "all" r :=
  ⟨Or.inl (by rw [toLowerCase_empty]; exact List.nil_infix), Or.inl rfl, Or.inl rfl⟩

theorem head_orderedInsert_iff (key : String) (n : MedicationRecord)
    (l : List MedicationRecord) (hnum : NumericAt key (n :: l)) (hs : l.Pairwise (GeAt key)) :
    (l.orderedInsert (fun a b => compareFn key a b ≤ 0) n).head? = some n ↔
      ∀ r ∈ l, GeAt key n r := by
  cases l with
  | nil => simp [List.orderedInsert]
  | cons y l =>
    obtain ⟨vn, hn⟩ := hnum n (List.mem_cons_self _ _)
    obtain ⟨vy, hy⟩ := hnum y (List.mem_cons_of_mem _ (List.mem_cons_self _ _))
    have hyl : ∀ z ∈ l, GeAt key y z := (List.pairwise_cons.mp hs).1
    by_cases hc : compareFn key n y ≤ 0
    · have hny : GeAt key n y := ⟨vn, vy, hn, hy, (compareFn_le_iff key n y vn vy hn hy).mp hc⟩
      rw [List.orderedInsert, if_pos hc]
      constructor
      · intro _ r hr
        rcases List.mem_cons.mp hr with rfl | hr
        · exact hny
        · exact GeAt_trans key n y r hny (hyl r hr)
      · intro _
        rfl
    · have hlt : vn < vy := by
        have := (compareFn_le_iff key n y vn vy hn hy).not.mp hc
        omega
      rw [List.orderedInsert, if_neg hc]
      constructor
      · intro hhead
        simp only [List.head?_cons, Option.some.injEq] at hhead
        subst hhead
        rw [hn] at hy
        cases hy
        omega
      · intro hall
        obtain ⟨vn2, vy2, hn2, hy2, hle⟩ := hall y (List.mem_cons_self _ _)
        rw [hn] at hn2
        rw [hy] at hy2
        cases hn2
        cases hy2
        omega

/-! ## The filter and sort pipeline -/

/-- C1: when the pipeline can read every record (the organization selector is `"all"` or every
record carries an `organizations` array) it returns a list that is a permutation of the input
records passing the three-part filter predicate: a record is in the output iff it is in the
input and passes, with the multiplicity it has in the input, and an empty search term passes
the search clause for every record. -/
theorem filteredMedications_perm_filter (medications : List MedicationRecord)
    (searchTerm selectedCategory selectedOrganization sortBy : String)
    (h : selectedOrganization = "all" ∨ HasOrganizations medications) :
    ∃ out, filteredMedications medications searchTerm selectedCategory selectedOrganization
        sortBy = .ok out ∧
      out.Perm (medications.filter (fun r =>
        decide (PassesFilter searchTerm selectedCategory selectedOrganization r))) ∧
      (∀ r, r ∈ out ↔
        r ∈ medications ∧ PassesFilter searchTerm selectedCategory selectedOrganization r) ∧
      (∀ r, out.count r =
        if PassesFilter searchTerm selectedCategory selectedOrganization r
        then medications.count r else 0) ∧
      (searchTerm = "" →
        ∀ r : MedicationRecord, (toLowerCase searchTerm).data <:+: (toLowerCase r.name).data) := by
  refine ⟨_, filteredMedications_eq medications _ _ _ _ h, arraySort_perm _ _, ?_, ?_, ?_⟩
  · intro r
    rw [(arraySort_perm _ _).mem_iff, List.mem_filter, decide_eq_true_eq]
  · intro r
    rw [(arraySort_perm _ _).count_eq]
    by_cases hp : PassesFilter searchTerm selectedCategory selectedOrganization r
    · rw [if_pos hp, List.count_filter (by simpa using hp)]
    · rw [if_neg hp]
      apply List.count_eq_zero_of_not_mem
      intro hmem
      rw [List.mem_filter, decide_eq_true_eq] at hmem
      exact hp hmem.2
  · rintro rfl r
    rw [toLowerCase_empty]
    exact List.nil_infix

/-- The theorem `filteredMedications_perm_filter` at the store
`[Drug A, ÉPINÉPHRINE, Drug B]`.  The search term `"épi"` keeps `ÉPINÉPHRINE` alone, and the
search term `"dRuG"` with category `"Pain"` and organization `"WHO"` keeps `Drug A` alone: the
search compares the lower-cased strings. -/
theorem filteredMedications_perm_filter_witness :
    filteredMedications [drugA, epinephrine, drugB] "épi" "all" "all" "badEffectScore" =
      .ok [epinephrine] ∧
    filteredMedications [drugA, epinephrine, drugB] "dRuG" "Pain" "WHO" "badEffectScore" =
      .ok [drugA] ∧
    filteredMedications [drugA, epinephrine, drugB] "DRUG" "all" "all" "badEffectScore" =
      .ok [drugB, drugA] ∧
    ("WHO" = "all" ∨ HasOrganizations [drugA, epinephrine, drugB]) ∧
    ∃ out, filteredMedications [drugA, epinephrine, drugB] "dRuG" "Pain" "WHO"
        "badEffectScore" = .ok out ∧
      out.Perm ([drugA, epinephrine, drugB].filter (fun r =>
        decide (PassesFilter "dRuG" "Pain" "WHO" r))) ∧
      (∀ r, r ∈ out ↔ r ∈ [drugA, epinephrine, drugB] ∧ PassesFilter "dRuG" "Pain" "WHO" r) ∧
      (∀ r, out.count r =
        if PassesFilter "dRuG" "Pain" "WHO" r then [drugA, epinephrine, drugB].count r
        else 0) ∧
      ("dRuG" = "" →
        ∀ r : MedicationRecord, (toLowerCase "dRuG").data <:+: (toLowerCase r.name).data) :=
  ⟨by decide, by decide, by decide,
    Or.inr (by simp [HasOrganizations, drugA, drugB, epinephrine]),
    filteredMedications_perm_filter [drugA, epinephrine, drugB] "dRuG" "Pain" "WHO"
      "badEffectScore" (Or.inr (by simp [HasOrganizations, drugA, drugB, epinephrine]))⟩

/-- C2: when every record has a number in the sort field (and the pipeline can read every
record), the pipeline returns a list that is non-increasing in that field: each record is at
least its successor, and indeed at least every later record. -/
theorem filteredMedications_nonincreasing (medications : List MedicationRecord)
    (searchTerm selectedCategory selectedOrganization sortBy : String)
    (h : selectedOrganization = "all" ∨ HasOrganizations medications)
    (hnum : NumericAt sortBy medications) :
    ∃ out, filteredMedications medications searchTerm selectedCategory selectedOrganization
        sortBy = .ok out ∧
      out.Chain' (GeAt sortBy) ∧ out.Pairwise (GeAt sortBy) := by
  have hp := arraySort_pairwise_GeAt sortBy
    (medications.filter (fun r =>
      decide (PassesFilter searchTerm selectedCategory selectedOrganization r)))
    (fun r hr => hnum r (List.mem_filter.mp hr).1)
  exact ⟨_, filteredMedications_eq medications _ _ _ _ h, hp.chain', hp⟩

/-- The scenario of the specification: `Drug A` (80) and `Drug B` (95) with neutral filters
and sort key `badEffectScore` give `[Drug B, Drug A]`, an instance of
`filteredMedications_nonincreasing`. -/
theorem filteredMedications_nonincreasing_witness :
    filteredMedications [drugA, drugB] "" "all" "all" "badEffectScore" = .ok [drugB, drugA] ∧
    ("all" = "all" ∨ HasOrganizations [drugA, drugB]) ∧
    NumericAt "badEffectScore" [drugA, drugB] ∧
    ∃ out, filteredMedications [drugA, drugB] "" "all" "all" "badEffectScore" = .ok out ∧
      out.Chain' (GeAt "badEffectScore") ∧ out.Pairwise (GeAt "badEffectScore") :=
  ⟨by decide, Or.inl rfl, by simp [NumericAt, numField, drugA, drugB],
    filteredMedications_nonincreasing [drugA, drugB] "" "all" "all" "badEffectScore"
      (Or.inl rfl) (by simp [NumericAt, numField, drugA, drugB])⟩

/-- C9: the sort is stable.  When every record has a number in the sort field, the records of
the output with a given value of that field are, in the same order, the records of the
filtered store with that value; so two output records with equal values stand in the order
they have in the store, and two store records that pass the filter with equal values keep
their order in the output. -/
theorem filteredMedications_stable (medications : List MedicationRecord)
    (searchTerm selectedCategory selectedOrganization sortBy : String)
    (h : selectedOrganization = "all" ∨ HasOrganizations medications)
    (hnum : NumericAt sortBy medications) :
    ∃ out, filteredMedications medications searchTerm selectedCategory selectedOrganization
        sortBy = .ok out ∧
      (∀ v : Int, out.filter (fun r => decide (numField r sortBy = some v)) =
        (medications.filter (fun r =>
          decide (PassesFilter searchTerm selectedCategory selectedOrganization r))).filter
            (fun r => decide (numField r sortBy = some v))) ∧
      (∀ x y, numField x sortBy = numField y sortBy → List.Sublist [x, y] out → List.Sublist [x, y] medications) ∧
      (∀ x y, numField x sortBy = numField y sortBy →
        PassesFilter searchTerm selectedCategory selectedOrganization x →
        PassesFilter searchTerm selectedCategory selectedOrganization y →
        List.Sublist [x, y] medications → List.Sublist [x, y] out) := by
  have hkey := fun v => filter_arraySort_key sortBy v (medications.filter (fun r =>
      decide (PassesFilter searchTerm selectedCategory selectedOrganization r)))
  refine ⟨_, filteredMedications_eq medications _ _ _ _ h, hkey, ?_, ?_⟩
  · intro x y hxy hsub
    have hxout : x ∈ arraySort (compareFn sortBy) (medications.filter (fun r =>
        decide (PassesFilter searchTerm selectedCategory selectedOrganization r))) :=
      hsub.subset (List.mem_cons_self _ _)
    have hxm : x ∈ medications :=
      (List.mem_filter.mp ((arraySort_perm _ _).mem_iff.mp hxout)).1
    obtain ⟨v, hv⟩ := hnum x hxm
    have hvy : numField y sortBy = some v := hxy ▸ hv
    have h1 := hsub.filter (fun r => decide (numField r sortBy = some v))
    rw [hkey v] at h1
    have h2 : [x, y].filter (fun r => decide (numField r sortBy = some v)) = [x, y] := by
      simp [hv, hvy]
    rw [h2] at h1
    exact (h1.trans (List.filter_sublist _)).trans (List.filter_sublist _)
  · intro x y hxy hpx hpy hsub
    have hxm : x ∈ medications := hsub.subset (List.mem_cons_self _ _)
    obtain ⟨v, hv⟩ := hnum x hxm
    have hvy : numField y sortBy = some v := hxy ▸ hv
    have h1 := (hsub.filter (fun r =>
      decide (PassesFilter searchTerm selectedCategory selectedOrganization r))).filter
        (fun r => decide (numField r sortBy = some v))
    rw [← hkey v] at h1
    have h2 : ([x, y].filter (fun r =>
        decide (PassesFilter searchTerm selectedCategory selectedOrganization r))).filter
          (fun r => decide (numField r sortBy = some v)) = [x, y] := by
      simp [hv, hvy, hpx, hpy]
    rw [h2] at h1
    exact h1.trans (List.filter_sublist _)

/-- The theorem `filteredMedications_stable` at a store in which `Drug A` and `Drug D` share
the score 80: the output keeps `Drug A` before `Drug D`. -/
theorem filteredMedications_stable_witness :
    filteredMedications [drugA, drugB, drugD] "" "all" "all" "badEffectScore" =
      .ok [drugB, drugA, drugD] ∧
    ∃ out, filteredMedications [drugA, drugB, drugD] "" "all" "all" "badEffectScore" = .ok out ∧
      (∀ v : Int, out.filter (fun r => decide (numField r "badEffectScore" = some v)) =
        ([drugA, drugB, drugD].filter (fun r =>
          decide (PassesFilter "" "all" "all" r))).filter
            (fun r => decide (numField r "badEffectScore" = some v))) ∧
      (∀ x y, numField x "badEffectScore" = numField y "badEffectScore" →
        List.Sublist [x, y] out → List.Sublist [x, y] [drugA, drugB, drugD]) ∧
      (∀ x y, numField x "badEffectScore" = numField y "badEffectScore" →
        PassesFilter "" "all" "all" x → PassesFilter "" "all" "all" y →
        List.Sublist [x, y] [drugA, drugB, drugD] → List.Sublist [x, y] out) :=
  ⟨by decide,
    filteredMedications_stable [drugA, drugB, drugD] "" "all" "all" "badEffectScore"
      (Or.inl rfl) (by simp [NumericAt, numField, drugA, drugB, drugD])⟩

/-- C10: for a store whose records all carry an `organizations` array and an overview
organization `o` of `ORGANIZATIONS`, the count shown for `o` is the length of the pipeline
output for empty search term, category selector `"all"` and organization selector `o`. -/
theorem flaggedCount_eq_pipeline_length (medications : List MedicationRecord)
    (sortBy o : String) (ho : o ∈ ORGANIZATIONS.map (fun org => org.1))
    (h : HasOrganizations medications) :
    ∃ out, filteredMedications medications "" "all" o sortBy = .ok out ∧
      flaggedCount medications o = out.length := by
  refine ⟨_, filteredMedications_eq medications _ _ _ _ (Or.inr h), ?_⟩
  rw [(arraySort_perm _ _).length_eq, flaggedCount]
  congr 1
  apply List.filter_congr
  intro r hr
  have hall : o ≠ "all" := by
    intro hc
    subst hc
    revert ho
    decide
  cases horg : r.organizations with
  | none => exact absurd horg (h r hr)
  | some orgs =>
    rw [Bool.eq_iff_iff, any_organization_iff, decide_eq_true_eq]
    unfold PassesFilter orgEntries
    rw [horg, Option.getD_some, toLowerCase_empty]
    constructor
    · intro hex
      exact ⟨Or.inl List.nil_infix, Or.inl rfl, Or.inr hex⟩
    · rintro ⟨_, _, h3 | h3⟩
      · exact absurd h3 hall
      · exact h3

/-- The theorem `flaggedCount_eq_pipeline_length` at the two sample records and `"WHO"`. -/
theorem flaggedCount_eq_pipeline_length_witness :
    "WHO" ∈ ORGANIZATIONS.map (fun org => org.1) ∧ HasOrganizations [drugA, drugB] ∧
    flaggedCount [drugA, drugB] "WHO" = 1 ∧
    ∃ out, filteredMedications [drugA, drugB] "" "all" "WHO" "badEffectScore" = .ok out ∧
      flaggedCount [drugA, drugB] "WHO" = out.length :=
  ⟨by decide, by simp [HasOrganizations, drugA, drugB], by decide,
    flaggedCount_eq_pipeline_length [drugA, drugB] "badEffectScore" "WHO" (by decide)
      (by simp [HasOrganizations, drugA, drugB])⟩

/-! ## The record store -/

/-- C3, as the code has it: after `handleAddMedication n`, when `n` and every stored record
have a number in the sort field, the pipeline run with neutral filters returns a list that
contains `n`, and `n` is its first element exactly when no stored record has a greater value
of the sort field. -/
theorem handleAddMedication_first_iff (s : ViewState) (n : MedicationRecord) (sortBy : String)
    (hnum : NumericAt sortBy (n :: s.medications)) :
    ∃ out, filteredMedications (handleAddMedication n s).medications "" "all" "all" sortBy =
        .ok out ∧
      n ∈ out ∧ (out.head? = some n ↔ ∀ r ∈ s.medications, GeAt sortBy n r) := by
  have hfilter : (n :: s.medications).filter (fun r =>
      decide (PassesFilter "" "all" "all" r)) = n :: s.medications :=
    List.filter_eq_self.mpr (fun r _ => decide_eq_true (passesFilter_neutral r))
  have heq := filteredMedications_eq (n :: s.medications) "" "all" "all" sortBy (Or.inl rfl)
  rw [hfilter] at heq
  refine ⟨_, heq, (arraySort_perm _ _).mem_iff.mpr (List.mem_cons_self _ _), ?_⟩
  have hrest : NumericAt sortBy s.medications :=
    fun r hr => hnum r (List.mem_cons_of_mem _ hr)
  have hsorted := arraySort_pairwise_GeAt sortBy s.medications hrest
  unfold arraySort at hsorted ⊢
  rw [List.insertionSort, head_orderedInsert_iff sortBy n _ _ hsorted]
  · constructor
    · intro hall r hr
      exact hall r ((List.mem_insertionSort _).mpr hr)
    · intro hall r hr
      exact hall r ((List.mem_insertionSort _).mp hr)
  · intro r hr
    rcases List.mem_cons.mp hr with rfl | hr
    · exact hnum _ (List.mem_cons_self _ _)
    · exact hrest r ((List.mem_insertionSort _).mp hr)

/-- The theorem `handleAddMedication_first_iff` at the store `[Drug A]` and new record
`Drug B`, whose score is the greater one. -/
theorem handleAddMedication_first_iff_witness :
    NumericAt "badEffectScore" (drugB :: (fetchResolved [drugA] initialState).medications) ∧
    ∃ out, filteredMedications
        (handleAddMedication drugB (fetchResolved [drugA] initialState)).medications
        "" "all" "all" "badEffectScore" = .ok out ∧
      drugB ∈ out ∧
      (out.head? = some drugB ↔
        ∀ r ∈ (fetchResolved [drugA] initialState).medications, GeAt "badEffectScore" drugB r) :=
  ⟨by simp [NumericAt, numField, fetchResolved, drugA, drugB],
    handleAddMedication_first_iff (fetchResolved [drugA] initialState) drugB "badEffectScore"
      (by simp [NumericAt, numField, fetchResolved, drugA, drugB])⟩

/-- C3 as stated fails: with `Drug B` (95) in the store, adding `Drug A` (80) and running the
pipeline with neutral filters gives `[Drug B, Drug A]`, whose first element is not the new
record. -/
theorem handleAddMedication_not_first :
    filteredMedications
        (handleAddMedication drugA (fetchResolved [drugB] initialState)).medications
        "" "all" "all" "badEffectScore" = .ok [drugB, drugA] ∧
      [drugB, drugA].head? ≠ some drugA := by
  decide

/-- C8: after a load of `rs` and submissions `a1, ..., an` in that order, the store is
`[an, ..., a1] ++ rs`; the load stores the fetched list as it is, and each submission puts the
new record at index 0 and moves every stored record up by one, unchanged. -/
theorem store_after_load_and_adds (rs added : List MedicationRecord) (s : ViewState) :
    (added.foldl (fun st a => handleAddMedication a st) (fetchResolved rs s)).medications =
        added.reverse ++ rs ∧
      (fetchResolved rs s).medications = rs ∧
      (∀ (n : MedicationRecord) (st : ViewState),
        (handleAddMedication n st).medications = n :: st.medications ∧
        (handleAddMedication n st).medications[0]? = some n ∧
        ∀ i : Nat, (handleAddMedication n st).medications[i + 1]? = st.medications[i]?) := by
  refine ⟨?_, rfl, fun n st => ⟨rfl, by simp [handleAddMedication],
    fun i => by simp [handleAddMedication]⟩⟩
  have key : ∀ (l : List MedicationRecord) (st : ViewState),
      (l.foldl (fun st a => handleAddMedication a st) st).medications =
        l.reverse ++ st.medications := by
    intro l
    induction l with
    | nil => intro st; rfl
    | cons a l ih =>
      intro st
      rw [List.foldl_cons, ih, List.reverse_cons, List.append_assoc]
      rfl
  exact key added (fetchResolved rs s)

/-- C7 as stated fails: the state reached by loading `[Drug A, Drug B]` and then submitting
`Drug A` again holds two records with the identifier of `Drug A`. -/
theorem uniqueIds_not_invariant :
    Reachable (handleAddMedication drugA (fetchResolved [drugA, drugB] initialState)) ∧
      ¬ UniqueIds (handleAddMedication drugA
        (fetchResolved [drugA, drugB] initialState)).medications := by
  refine ⟨Reachable.added _ _ (Reachable.resolved _ _ Reachable.init), ?_⟩
  unfold UniqueIds
  decide

/-- C7, as the code has it: the store operations check no identifier.  The initial store has
unique identifiers; a load leaves the store with unique identifiers exactly when the fetched
list has them; a submission keeps them exactly when the store had them and the identifier of
the new record is not among those of the store; a rejected fetch leaves the store as it is. -/
theorem uniqueIds_step :
    UniqueIds initialState.medications ∧
      (∀ (data : List MedicationRecord) (s : ViewState),
        UniqueIds (fetchResolved data s).medications ↔ UniqueIds data) ∧
      (∀ (n : MedicationRecord) (s : ViewState),
        UniqueIds (handleAddMedication n s).medications ↔
          cardKey n ∉ s.medications.map cardKey ∧ UniqueIds s.medications) ∧
      (∀ s : ViewState, UniqueIds (fetchRejected s).medications ↔ UniqueIds s.medications) := by
  refine ⟨List.nodup_nil, fun data s => Iff.rfl, fun n s => ?_, fun s => Iff.rfl⟩
  unfold UniqueIds handleAddMedication
  rw [List.map_cons, List.nodup_cons]

/-! ## Fetch failure -/

/-- C5: the `catch` branch of the fetch clears `loading`, sets the fixed error message and
leaves the store and every selection as they were; from the initial state the store is still
empty, and the render of that state is the error message, not the page with the record list. -/
theorem fetchRejected_shows_error :
    (∀ s : ViewState,
      (fetchRejected s).loading = false ∧
      (fetchRejected s).error = some "Error fetching medications. Please try again later." ∧
      (fetchRejected s).medications = s.medications ∧
      (fetchRejected s).searchTerm = s.searchTerm ∧
      (fetchRejected s).selectedCategory = s.selectedCategory ∧
      (fetchRejected s).selectedOrganization = s.selectedOrganization ∧
      (fetchRejected s).sortBy = s.sortBy ∧
      (fetchRejected s).darkMode = s.darkMode ∧
      (fetchRejected s).showAddForm = s.showAddForm) ∧
    initialState.loading = true ∧ initialState.error = none ∧ initialState.medications = [] ∧
    (fetchRejected initialState).medications = [] ∧
    render (fetchRejected initialState) =
      .ok (.errorMessage "Error fetching medications. Please try again later.") := by
  refine ⟨fun s => ⟨rfl, rfl, rfl, rfl, rfl, rfl, rfl, rfl, rfl⟩, rfl, rfl, rfl, rfl, ?_⟩
  decide

/-! ## Records without an `organizations` field -/

/-- C6, the code at a store holding a record without `organizations`: the organization facet
and the pipeline with a specific organization selector raise a `TypeError`, and so does the
render, while the guarded overview count and the pipeline with selector `"all"` go
through. -/
theorem absent_organizations_raises :
    organizations [drugA, drugNoOrgs] = .error .typeError ∧
      filteredMedications [drugA, drugNoOrgs] "" "all" "WHO" "badEffectScore" =
        .error .typeError ∧
      render (fetchResolved [drugA, drugNoOrgs] initialState) = .error .typeError ∧
      flaggedCount [drugA, drugNoOrgs] "WHO" = 1 ∧
      filteredMedications [drugA, drugNoOrgs] "" "all" "all" "badEffectScore" =
        .ok [drugA, drugNoOrgs] := by
  decide

/-! ## Facets -/

/-- C4: for a store whose records all carry an `organizations` array, the facet lists
`categories` and `organizations` hold no value twice, hold exactly the values that occur (the
category of a record; the organization of an entry of a record), and list them by first
occurrence: of two listed values, the one that occurs first in the store comes first. -/
theorem facets_distinct_first_seen (medications : List MedicationRecord)
    (h : HasOrganizations medications) :
    ((categories medications).Nodup ∧
      (∀ c, c ∈ categories medications ↔ ∃ r ∈ medications, r.category = c) ∧
      (∀ a b, a ∈ categories medications → b ∈ categories medications →
        (List.indexOf a (categories medications) < List.indexOf b (categories medications) ↔
          List.indexOf a (categoryOccurrences medications) <
            List.indexOf b (categoryOccurrences medications)))) ∧
    ∃ orgs, organizations medications = .ok orgs ∧
      orgs.Nodup ∧
      (∀ o, o ∈ orgs ↔ ∃ r ∈ medications, ∃ e ∈ orgEntries r, e.organization = o) ∧
      (∀ a b, a ∈ orgs → b ∈ orgs →
        (List.indexOf a orgs < List.indexOf b orgs ↔
          List.indexOf a (organizationOccurrences medications) <
            List.indexOf b (organizationOccurrences medications))) := by
  refine ⟨⟨nodup_arrayFromSet _, ?_, ?_⟩, arrayFromSet (organizationOccurrences medications),
    ?_, nodup_arrayFromSet _, ?_, ?_⟩
  · intro c
    unfold categories
    rw [mem_arrayFromSet, List.mem_map]
  · intro a b ha hb
    unfold categories at ha hb ⊢
    exact indexOf_arrayFromSet_lt_iff _ a b ((mem_arrayFromSet _ a).mp ha)
      ((mem_arrayFromSet _ b).mp hb)
  · unfold organizations
    rw [arrayFlatMap_organizationNamesOf medications h]
  · intro o
    rw [mem_arrayFromSet]
    unfold organizationOccurrences
    simp only [List.mem_flatMap, List.mem_map]
  · intro a b ha hb
    exact indexOf_arrayFromSet_lt_iff _ a b ((mem_arrayFromSet _ a).mp ha)
      ((mem_arrayFromSet _ b).mp hb)

/-- The theorem `facets_distinct_first_seen` at the store `[Drug D, Drug B, Drug A]`, whose
facets are `["Pain", "Cardiac"]` and `["WHO", "FDA"]`. -/
theorem facets_distinct_first_seen_witness :
    HasOrganizations [drugD, drugB, drugA] ∧
    categories [drugD, drugB, drugA] = ["Pain", "Cardiac"] ∧
    organizations [drugD, drugB, drugA] = .ok ["WHO", "FDA"] ∧
    ((categories [drugD, drugB, drugA]).Nodup ∧
      (∀ c, c ∈ categories [drugD, drugB, drugA] ↔
        ∃ r ∈ [drugD, drugB, drugA], r.category = c) ∧
      (∀ a b, a ∈ categories [drugD, drugB, drugA] → b ∈ categories [drugD, drugB, drugA] →
        (List.indexOf a (categories [drugD, drugB, drugA]) <
            List.indexOf b (categories [drugD, drugB, drugA]) ↔
          List.indexOf a (categoryOccurrences [drugD, drugB, drugA]) <
            List.indexOf b (categoryOccurrences [drugD, drugB, drugA])))) ∧
    ∃ orgs, organizations [drugD, drugB, drugA] = .ok orgs ∧
      orgs.Nodup ∧
      (∀ o, o ∈ orgs ↔ ∃ r ∈ [drugD, drugB, drugA], ∃ e ∈ orgEntries r, e.organization = o) ∧
      (∀ a b, a ∈ orgs → b ∈ orgs →
        (List.indexOf a orgs < List.indexOf b orgs ↔
          List.indexOf a (organizationOccurrences [drugD, drugB, drugA]) <
            List.indexOf b (organizationOccurrences [drugD, drugB, drugA]))) :=
  ⟨by simp [HasOrganizations, drugA, drugB, drugD], by decide, by decide,
    facets_distinct_first_seen [drugD, drugB, drugA]
      (by simp [HasOrganizations, drugA, drugB, drugD])⟩

end SeriousMedications
